import Mathlib

/-!
Verification of the filter-and-aggregate pipeline of the visitor-analytics
dashboard (`src/Visitor.py`).  The dataframe is modelled as a `List` of
`VisitorRecord`; the derived columns `date`, `hour` and `day_name` are pure
functions of the timestamp, which is measured in minutes from a Monday
midnight epoch.  Each definition below embeds the corresponding
pandas/streamlit expression of the source file.
-/

namespace VisitorTracker

/-- One row of the working dataframe after preprocessing
(`df['timestamp'] = pd.to_datetime(...)`, rows with unparseable timestamps
dropped).  Optional columns hold `none` where the cell is NaN. -/
structure VisitorRecord where
  timestamp : Nat
  ip : String
  country : String
  region : Option String
  city : Option String
  device : Option String
  browser : Option String
deriving DecidableEq, Repr

/-- Derived column `date` (`df['timestamp'].dt.date`): calendar day ordinal. -/
def dateOf (r : VisitorRecord) : Nat := r.timestamp / 1440

/-- Derived column `hour` (`df['timestamp'].dt.hour`). -/
def hourOf (r : VisitorRecord) : Nat := r.timestamp % 1440 / 60

/-- The canonical weekday order used at line 562 of the source. -/
def dayOrder : List String :=
  ["Monday", "Tuesday", "Wednesday", "Thursday", "Friday", "Saturday", "Sunday"]

/-- Derived column `day_name` (`df['timestamp'].dt.day_name()`); the epoch
of the model is a Monday. -/
def dayNameOf (r : VisitorRecord) : String := dayOrder.getD (dateOf r % 7) "Monday"

/-! ## Loader (`load_data`, lines 90-98) -/

/-- The raw CSV table as fetched, before header normalisation. -/
structure RawTable where
  headers : List String
  rows : List (List String)
deriving DecidableEq, Repr

/-- `load_data` (lines 91-98): the `try` body, `pd.read_csv` included, is
modelled by an `Except` argument.  On success the headers are stripped and
lowercased (`df.columns.str.strip().str.lower()`); on any failure an empty
dataframe is returned together with the `st.error` message. -/
def load_data (fetch : Except String RawTable) : RawTable × Option String :=
  match fetch with
  | Except.ok t => ({ headers := t.headers.map (fun h => h.trim.toLower), rows := t.rows }, none)
  | Except.error e => (⟨[], []⟩, some ("Failed to load visitor data: " ++ e))

/-! ## Filter stage (lines 223-257) -/

/-- The sidebar filter widgets feeding the filter stage: `date_range` is
`none` when the date widget holds fewer than two dates (`len(date_range) == 2`
fails), the categorical selections use the sentinel `"All"`, and
`timeFilter` is one of the five literal option strings of line 220. -/
structure FilterSettings where
  dateRange : Option (Nat × Nat)
  selectedCountry : String
  selectedDevice : String
  selectedBrowser : String
  timeFilter : String
deriving DecidableEq, Repr

/-- Date-range filter (lines 227-232): keep rows with
`start_date <= date <= end_date`; skipped when the widget does not hold
exactly two dates. -/
def date_filter (dr : Option (Nat × Nat)) (df : List VisitorRecord) : List VisitorRecord :=
  match dr with
  | some (s, e) => df.filter (fun r => decide (s ≤ dateOf r ∧ dateOf r ≤ e))
  | none => df

/-- Country filter (lines 235-236). -/
def country_filter (c : String) (df : List VisitorRecord) : List VisitorRecord :=
  if c ≠ "All" then df.filter (fun r => decide (r.country = c)) else df

/-- Device filter (lines 239-240); `hasDevice` is `'device' in df.columns`.
A NaN cell (`none`) never equals the selected value, as in pandas. -/
def device_filter (d : String) (hasDevice : Bool) (df : List VisitorRecord) :
    List VisitorRecord :=
  if d ≠ "All" ∧ hasDevice then df.filter (fun r => decide (r.device = some d)) else df

/-- Browser filter (lines 243-244). -/
def browser_filter (b : String) (hasBrowser : Bool) (df : List VisitorRecord) :
    List VisitorRecord :=
  if b ≠ "All" ∧ hasBrowser then df.filter (fun r => decide (r.browser = some b)) else df

/-- Time-of-day filter (lines 247-255): the `if/elif` chain on the literal
option strings, each branch a `hour.between(lo, hi)` mask (inclusive). -/
def time_filter_apply (tf : String) (df : List VisitorRecord) : List VisitorRecord :=
  if tf ≠ "All Day" then
    if tf = "Morning (6-12)" then df.filter (fun r => decide (6 ≤ hourOf r ∧ hourOf r ≤ 11))
    else if tf = "Afternoon (12-18)" then df.filter (fun r => decide (12 ≤ hourOf r ∧ hourOf r ≤ 17))
    else if tf = "Evening (18-24)" then df.filter (fun r => decide (18 ≤ hourOf r ∧ hourOf r ≤ 23))
    else if tf = "Night (0-6)" then df.filter (fun r => decide (0 ≤ hourOf r ∧ hourOf r ≤ 5))
    else df
  else df

/-- The whole filter stage (lines 191, 223-257): on a non-empty dataframe the
five masks are applied in sequence to `df.copy()`; an empty dataframe is
returned as `df.copy()` unfiltered. -/
def filtered_df (ps : FilterSettings) (hasDevice hasBrowser : Bool)
    (df : List VisitorRecord) : List VisitorRecord :=
  if df.isEmpty then df
  else
    time_filter_apply ps.timeFilter
      (browser_filter ps.selectedBrowser hasBrowser
        (device_filter ps.selectedDevice hasDevice
          (country_filter ps.selectedCountry
            (date_filter ps.dateRange df))))

/-- The row predicate of the date-range filter, as a Boolean. -/
def date_pred (dr : Option (Nat × Nat)) (r : VisitorRecord) : Bool :=
  match dr with
  | some (s, e) => decide (s ≤ dateOf r ∧ dateOf r ≤ e)
  | none => true

/-- The row predicate of the country filter. -/
def country_pred (c : String) (r : VisitorRecord) : Bool :=
  if c ≠ "All" then decide (r.country = c) else true

/-- The row predicate of the device filter. -/
def device_pred (d : String) (hasDevice : Bool) (r : VisitorRecord) : Bool :=
  if d ≠ "All" ∧ hasDevice then decide (r.device = some d) else true

/-- The row predicate of the browser filter. -/
def browser_pred (b : String) (hasBrowser : Bool) (r : VisitorRecord) : Bool :=
  if b ≠ "All" ∧ hasBrowser then decide (r.browser = some b) else true

/-- The row predicate of the time-of-day filter. -/
def time_pred (tf : String) (r : VisitorRecord) : Bool :=
  if tf ≠ "All Day" then
    if tf = "Morning (6-12)" then decide (6 ≤ hourOf r ∧ hourOf r ≤ 11)
    else if tf = "Afternoon (12-18)" then decide (12 ≤ hourOf r ∧ hourOf r ≤ 17)
    else if tf = "Evening (18-24)" then decide (18 ≤ hourOf r ∧ hourOf r ≤ 23)
    else if tf = "Night (0-6)" then decide (0 ≤ hourOf r ∧ hourOf r ≤ 5)
    else true
  else true

/-- The conjunction of all five filter predicates on one row. -/
def settings_pred (ps : FilterSettings) (hasDevice hasBrowser : Bool)
    (r : VisitorRecord) : Bool :=
  date_pred ps.dateRange r && country_pred ps.selectedCountry r
    && device_pred ps.selectedDevice hasDevice r
    && browser_pred ps.selectedBrowser hasBrowser r
    && time_pred ps.timeFilter r

/-! ## Trend view (lines 612-646) -/

/-- Distinct `date` values of the filtered set in ascending order
(`groupby('date').size()` keys, then `sort_values('date')`). -/
def distinct_dates (df : List VisitorRecord) : List Nat :=
  List.insertionSort (· ≤ ·) (df.map dateOf).dedup

/-- Rows of the filtered set falling on the date `d`. -/
def date_count (df : List VisitorRecord) (d : Nat) : Nat :=
  df.countP (fun r => decide (dateOf r = d))

/-- `daily_visits` (lines 614-615): one `(date, visits)` row per distinct
date, sorted by date. -/
def daily_visits (df : List VisitorRecord) : List (Nat × Nat) :=
  (distinct_dates df).map (fun d => (d, date_count df d))

/-- The `visits` column of `daily_visits`. -/
def daily_counts (df : List VisitorRecord) : List Nat :=
  (daily_visits df).map Prod.snd

/-- The number of distinct dates (`len(daily_visits)`). -/
def num_dates (df : List VisitorRecord) : Nat := (distinct_dates df).length

/-- Start of the centered window at output index `i` (pandas fixed-window
indexer with `center=True`): `i + 1 + (w-1)//2 - w`, clipped at `0` by
truncated subtraction. -/
def win_start (w i : Nat) : Nat := i + 1 + (w - 1) / 2 - w

/-- End (exclusive) of the centered window at output index `i`, clipped to
the data length `n`: `min (i + 1 + (w-1)//2) n`. -/
def win_end (w n i : Nat) : Nat := min (i + 1 + (w - 1) / 2) n

/-- One entry of `rolling(window=w, center=True).mean()` under the default
`min_periods = w`: defined only when the clipped window still holds `w`
values, in which case it is the mean of those values. -/
def rolling_entry (w : Nat) (xs : List Nat) (i : Nat) : Option ℚ :=
  if w ≤ win_end w xs.length i - win_start w i then
    some ((((xs.drop (win_start w i)).take (win_end w xs.length i - win_start w i)).sum : ℚ) / w)
  else none

/-- `rolling(window=w, center=True).mean()` over a counts column: one
output entry per input entry. -/
def rolling_avg (w : Nat) (xs : List Nat) : List (Option ℚ) :=
  (List.range xs.length).map (rolling_entry w xs)

/-- The trend tab (lines 612-646): when the filtered set has more than 7
rows (`len(filtered_df) > 7`) the rolling average is computed over the
daily counts with window `min(7, len(daily_visits))`; otherwise nothing is
computed and the info message "Not enough data points for trend analysis
(minimum 7 days required)" is shown, modelled as `none`. -/
def trend_view (df : List VisitorRecord) : Option (List (Option ℚ)) :=
  if 7 < df.length then
    some (rolling_avg (min 7 (num_dates df)) (daily_counts df))
  else none

/-! ## Day-of-week grouping (lines 562-564) -/

/-- Rows of the filtered set falling on the weekday `d`. -/
def day_count (df : List VisitorRecord) (d : String) : Nat :=
  df.countP (fun r => decide (dayNameOf r = d))

/-- `day_data` (lines 562-563): `value_counts().reindex(day_order)`.  All
seven canonical days appear in order; a day absent from the filtered set
gets a NaN count from `reindex`, modelled as `none`. -/
def day_data (df : List VisitorRecord) : List (String × Option Nat) :=
  dayOrder.map (fun d =>
    (d, if day_count df d = 0 then none else some (day_count df d)))

/-! ## Table view: search, sort, paginate (lines 648-703) -/

/-- Whether the first list is an initial segment of the second (the
literal-substring reading of matching, used to compare against the regex
behaviour of the source). -/
def leading_match : List Char → List Char → Bool
  | [], _ => true
  | _ :: _, [] => false
  | a :: as, b :: bs => a == b && leading_match as bs

/-- Whether the first list occurs contiguously anywhere in the second
(literal-substring containment). -/
def occurs_in (needle : List Char) : List Char → Bool
  | [] => leading_match needle []
  | b :: bs => leading_match needle (b :: bs) || occurs_in needle bs

/-- The characters of a string folded to lower case. -/
def lower_chars (s : String) : List Char := s.toList.map Char.toLower

/-- The special characters of Python's `re` module.  In a
`str.contains(term, regex=True)` call they change the match semantics
(or, e.g. for a lone parenthesis, raise `re.error`). -/
def python_metachars : List Char :=
  ['.', '^', '$', '*', '+', '?', '\x7b', '\x7d', '[', ']', '\\', '|', '(', ')']

/-- One token of the modelled regex fragment: a literal character or the
`.` wildcard.  Regex constructs other than `.` are outside the modelled
fragment. -/
inductive RTok where
  | lit (c : Char)
  | dot
deriving DecidableEq, Repr

/-- Parse a search term into the modelled regex fragment: `.` becomes the
wildcard, any other regex metacharacter is outside the fragment (`none`),
any remaining character is a literal. -/
def parse_pattern : List Char → Option (List RTok)
  | [] => some []
  | c :: cs =>
    if c = '.' then (parse_pattern cs).map (fun p => RTok.dot :: p)
    else if python_metachars.contains c then none
    else (parse_pattern cs).map (fun p => RTok.lit c :: p)

/-- Whether one token matches one character: `.` matches any character
except a newline, as in Python's default mode. -/
def tok_match : RTok → Char → Bool
  | RTok.lit a, c => a == c
  | RTok.dot, c => !(c == '\n')

/-- Whether the pattern matches starting at the head of the text. -/
def rmatch_here : List RTok → List Char → Bool
  | [], _ => true
  | _ :: _, [] => false
  | t :: ts, c :: cs => tok_match t c && rmatch_here ts cs

/-- `re.search`: whether the pattern matches at any position of the
text. -/
def rsearch (p : List RTok) : List Char → Bool
  | [] => rmatch_here p []
  | c :: cs => rmatch_here p (c :: cs) || rsearch p cs

/-- `astype(str)` of an optional cell: NaN prints as `"nan"`. -/
def opt_str : Option String → String
  | some s => s
  | none => "nan"

/-- The string form of every column of a row (`display_df.astype(str)`),
the derived columns included. -/
def row_strings (r : VisitorRecord) : List String :=
  [toString r.timestamp, r.ip, r.country, opt_str r.region, opt_str r.city,
   opt_str r.device, opt_str r.browser, toString (dateOf r), toString (hourOf r),
   dayNameOf r]

/-- `search_mask` (lines 668-670): a row passes when the case-insensitive
regex search of the (already parsed) term succeeds on ANY column's string
form (`x.str.contains(search_term, case=False, na=False)` with the pandas
default `regex=True`, then `.any(axis=1)`). -/
def search_mask (p : List RTok) (r : VisitorRecord) : Bool :=
  (row_strings r).any (fun s => rsearch p (lower_chars s))

/-- Search application (lines 665-671): the mask is applied only when the
search box is non-empty (`if search_term:`).  `none` marks a term outside
the modelled regex fragment, where the source follows other `re`
semantics or raises `re.error`. -/
def search_apply (term : String) (df : List VisitorRecord) :
    Option (List VisitorRecord) :=
  if term ≠ "" then
    (parse_pattern (lower_chars term)).map (fun p => df.filter (search_mask p))
  else some df

/-- `total_pages` (line 681):
`(total_rows - 1) // show_rows + 1 if total_rows > 0 else 1`. -/
def total_pages (totalRows pageSize : Nat) : Nat :=
  if 0 < totalRows then (totalRows - 1) / pageSize + 1 else 1

/-- The displayed slice `display_df.iloc[start_idx:end_idx]` with
`start_idx = (page - 1) * show_rows` and `end_idx = start_idx + show_rows`
(lines 692-697); Python slicing clips at the end of the frame. -/
def paginate (df : List VisitorRecord) (page pageSize : Nat) : List VisitorRecord :=
  (df.drop ((page - 1) * pageSize)).take pageSize

/-- `st.number_input(min_value=1, max_value=total_pages)` (lines 685-690):
the page request is clamped into `[1, total_pages]`. -/
def clamp_page (p tp : Nat) : Nat := max 1 (min p tp)

/-! ## Daily-average KPI (lines 294-299) -/

/-- `filtered_df['date'].min()`. -/
def min_date (df : List VisitorRecord) : Nat :=
  match df.map dateOf with
  | [] => 0
  | x :: xs => xs.foldl min x

/-- `filtered_df['date'].max()`. -/
def max_date (df : List VisitorRecord) : Nat :=
  match df.map dateOf with
  | [] => 0
  | x :: xs => xs.foldl max x

/-- `(filtered_df['date'].max() - filtered_df['date'].min()).days + 1`. -/
def date_range_days (df : List VisitorRecord) : Nat :=
  max_date df - min_date df + 1

/-- `avg_daily` (lines 294-298): `len / max(1, days)` on a non-empty set,
`0` on an empty one (the span is not computed in that branch). -/
def avg_daily (df : List VisitorRecord) : ℚ :=
  if 0 < df.length then
    (df.length : ℚ) / ((max 1 (date_range_days df) : Nat) : ℚ)
  else 0

/-! ## Render-cycle state (for the no-mutation invariant) -/

/-- The two frames alive during one render cycle: the loaded set `df` and
the view `filtered_df`. -/
structure DashboardState where
  loaded : List VisitorRecord
  view : List VisitorRecord
deriving DecidableEq, Repr

/-- One run of the filter stage (lines 224-257): the view is recomputed
from the loaded set (`filtered_df = df.copy()` then the masks); the loaded
set itself is only read. -/
def apply_filter_stage (s : DashboardState) (ps : FilterSettings)
    (hasDevice hasBrowser : Bool) : DashboardState :=
  { loaded := s.loaded, view := filtered_df ps hasDevice hasBrowser s.loaded }

/-! ## Concrete inputs -/

/-- A row visiting from the US on a mobile device; timestamp 600 is
Monday 10:00 of day 0. -/
def rowUS : VisitorRecord := ⟨600, "1.2.3.4", "US", none, none, some "Mobile", none⟩

/-- A row visiting from France on a desktop; timestamp 660 is
Monday 11:00 of day 0. -/
def rowFR : VisitorRecord := ⟨660, "5.6.7.8", "FR", none, none, some "Desktop", none⟩

/-- A row with no literal dot in any column's string form; timestamp 600
is Monday 10:00 of day 0. -/
def rowNoDot : VisitorRecord :=
  ⟨600, "localhost", "US", none, none, some "Mobile", none⟩

/-- Eight rows all falling on one calendar date (day 0, a Monday). -/
def ex8 : List VisitorRecord :=
  (List.range 8).map (fun i => ⟨i * 60, toString i, "US", none, none, none, none⟩)

/-! ## Theorems -/

theorem date_filter_eq (dr : Option (Nat × Nat)) (df : List VisitorRecord) :
    date_filter dr df = df.filter (date_pred dr) := by
  cases dr with
  | none => exact (List.filter_true df).symm
  | some p => cases p; rfl

theorem country_filter_eq (c : String) (df : List VisitorRecord) :
    country_filter c df = df.filter (country_pred c) := by
  unfold country_filter country_pred
  by_cases h : c ≠ "All" <;> simp [h]

theorem device_filter_eq (d : String) (hasDevice : Bool) (df : List VisitorRecord) :
    device_filter d hasDevice df = df.filter (device_pred d hasDevice) := by
  unfold device_filter device_pred
  by_cases h : d ≠ "All" ∧ hasDevice = true <;> simp [h]

theorem browser_filter_eq (b : String) (hasBrowser : Bool) (df : List VisitorRecord) :
    browser_filter b hasBrowser df = df.filter (browser_pred b hasBrowser) := by
  unfold browser_filter browser_pred
  by_cases h : b ≠ "All" ∧ hasBrowser = true <;> simp [h]

theorem time_filter_apply_eq (tf : String) (df : List VisitorRecord) :
    time_filter_apply tf df = df.filter (time_pred tf) := by
  unfold time_filter_apply time_pred
  by_cases h0 : tf = "All Day"
  · simp [h0]
  by_cases h1 : tf = "Morning (6-12)"
  · simp [h0, h1]
  by_cases h2 : tf = "Afternoon (12-18)"
  · simp [h0, h1, h2]
  by_cases h3 : tf = "Evening (18-24)"
  · simp [h0, h1, h2, h3]
  by_cases h4 : tf = "Night (0-6)" <;> simp [h0, h1, h2, h3, h4]

theorem filtered_df_eq_filter (ps : FilterSettings) (hasDevice hasBrowser : Bool)
    (df : List VisitorRecord) :
    filtered_df ps hasDevice hasBrowser df
      = df.filter (settings_pred ps hasDevice hasBrowser) := by
  by_cases hemp : df.isEmpty
  · have hnil : df = [] := List.isEmpty_iff.mp hemp
    subst hnil; simp [filtered_df]
  · unfold filtered_df
    rw [if_neg hemp, date_filter_eq, country_filter_eq, device_filter_eq,
      browser_filter_eq, time_filter_apply_eq]
    simp only [List.filter_filter]
    apply List.filter_congr
    intro r _
    simp only [settings_pred]
    cases date_pred ps.dateRange r <;> cases country_pred ps.selectedCountry r <;>
      cases device_pred ps.selectedDevice hasDevice r <;>
        cases browser_pred ps.selectedBrowser hasBrowser r <;>
          cases time_pred ps.timeFilter r <;> rfl

/-- C4: the time-of-day bucket filter keeps a record under
"Morning (6-12)" iff its hour is in [6,11], under "Afternoon (12-18)" iff
it is in [12,17], under "Evening (18-24)" iff it is in [18,23], under
"Night (0-6)" iff it is in [0,5], and keeps every record under
"All Day". -/
theorem time_filter_buckets (df : List VisitorRecord) (r : VisitorRecord) :
    time_filter_apply "All Day" df = df
  ∧ (r ∈ time_filter_apply "Morning (6-12)" df ↔ r ∈ df ∧ 6 ≤ hourOf r ∧ hourOf r ≤ 11)
  ∧ (r ∈ time_filter_apply "Afternoon (12-18)" df ↔ r ∈ df ∧ 12 ≤ hourOf r ∧ hourOf r ≤ 17)
  ∧ (r ∈ time_filter_apply "Evening (18-24)" df ↔ r ∈ df ∧ 18 ≤ hourOf r ∧ hourOf r ≤ 23)
  ∧ (r ∈ time_filter_apply "Night (0-6)" df ↔ r ∈ df ∧ 0 ≤ hourOf r ∧ hourOf r ≤ 5) := by
  refine ⟨?_, ?_, ?_, ?_, ?_⟩ <;>
    simp [time_filter_apply, List.mem_filter, and_assoc]

/-- C7: a transport or parse failure during loading yields the empty
dataframe together with the error message, never an uncontrolled raise;
a successful fetch yields the table with headers trimmed of whitespace
and lowercased, and no error. -/
theorem load_data_spec (e : String) (t : RawTable) :
    load_data (Except.error e)
      = (⟨[], []⟩, some ("Failed to load visitor data: " ++ e))
  ∧ (load_data (Except.ok t)).2 = none
  ∧ (load_data (Except.ok t)).1.headers = t.headers.map (fun h => h.trim.toLower)
  ∧ (load_data (Except.ok t)).1.rows = t.rows :=
  ⟨rfl, rfl, rfl, rfl⟩

/-- C8: applying the filter stage twice in sequence equals applying one
filter by the conjunction of the two predicate sets. -/
theorem filter_compose (P1 P2 : FilterSettings) (hasDevice hasBrowser : Bool)
    (df : List VisitorRecord) :
    filtered_df P2 hasDevice hasBrowser (filtered_df P1 hasDevice hasBrowser df)
      = df.filter (fun r => settings_pred P1 hasDevice hasBrowser r
          && settings_pred P2 hasDevice hasBrowser r) := by
  rw [filtered_df_eq_filter, filtered_df_eq_filter, List.filter_filter]
  apply List.filter_congr
  intro r _
  exact Bool.and_comm _ _

/-- C9: one run of the filter stage leaves the loaded set untouched, and
the resulting view is a subsequence of the loaded set, so every row of the
view is a row of the loaded set with all field values unchanged. -/
theorem filter_no_mutation (s : DashboardState) (ps : FilterSettings)
    (hasDevice hasBrowser : Bool) :
    (apply_filter_stage s ps hasDevice hasBrowser).loaded = s.loaded
  ∧ (apply_filter_stage s ps hasDevice hasBrowser).view.Sublist s.loaded := by
  refine ⟨rfl, ?_⟩
  show (filtered_df ps hasDevice hasBrowser s.loaded).Sublist s.loaded
  rw [filtered_df_eq_filter]
  exact List.filter_sublist s.loaded

/-- C10: on a non-empty filtered set the daily-average divisor
`max(1, days spanned)` is at least 1, hence nonzero, and the average is
the record count divided by it; the empty set yields 0 directly. -/
theorem avg_daily_spec (df : List VisitorRecord) :
    avg_daily [] = 0
  ∧ (df ≠ [] →
      (1 : ℚ) ≤ ((max 1 (date_range_days df) : Nat) : ℚ)
      ∧ ((max 1 (date_range_days df) : Nat) : ℚ) ≠ 0
      ∧ avg_daily df * ((max 1 (date_range_days df) : Nat) : ℚ) = (df.length : ℚ)) := by
  refine ⟨by simp [avg_daily], fun h => ?_⟩
  have hlen : 0 < df.length := List.length_pos.mpr h
  have h1 : (1 : ℚ) ≤ ((max 1 (date_range_days df) : Nat) : ℚ) := by
    exact_mod_cast Nat.one_le_cast.mpr (le_max_left 1 (date_range_days df))
  have hne : ((max 1 (date_range_days df) : Nat) : ℚ) ≠ 0 :=
    ne_of_gt (lt_of_lt_of_le zero_lt_one h1)
  refine ⟨h1, hne, ?_⟩
  rw [avg_daily, if_pos hlen]
  exact div_mul_cancel₀ _ hne

/-- C10 witness: the one-row set has divisor 1 and average 1. -/
theorem avg_daily_spec_witness :
    [rowUS] ≠ [] ∧ avg_daily [rowUS] * ((max 1 (date_range_days [rowUS]) : Nat) : ℚ)
      = (([rowUS] : List VisitorRecord).length : ℚ) :=
  ⟨by decide, ((avg_daily_spec [rowUS]).2 (by decide)).2.2⟩

theorem total_pages_pos (t pageSize : Nat) : 1 ≤ total_pages t pageSize := by
  unfold total_pages
  split
  · exact Nat.succ_le_succ (Nat.zero_le _)
  · exact le_refl 1

theorem paginate_first (pageSize : Nat) (df : List VisitorRecord) :
    paginate df 1 pageSize = df.take pageSize := by
  simp [paginate]

theorem paginate_shift (df : List VisitorRecord) (i pageSize : Nat) :
    paginate df (i + 2) pageSize = paginate (df.drop pageSize) (i + 1) pageSize := by
  show List.take pageSize (List.drop ((i + 1) * pageSize) df)
      = List.take pageSize (List.drop (i * pageSize) (List.drop pageSize df))
  rw [List.drop_drop, Nat.succ_mul, Nat.add_comm (i * pageSize) pageSize]

theorem join_pages (pageSize : Nat) :
    ∀ (k : Nat) (df : List VisitorRecord), df.length ≤ k * pageSize →
      ((List.range k).map (fun i => paginate df (i + 1) pageSize)).flatten = df := by
  intro k
  induction k with
  | zero =>
    intro df h
    simp only [Nat.zero_mul, Nat.le_zero] at h
    simp [List.eq_nil_of_length_eq_zero h]
  | succ k ih =>
    intro df h
    rw [List.range_succ_eq_map, List.map_cons, List.map_map, List.flatten_cons]
    have hmap : (List.range k).map ((fun i => paginate df (i + 1) pageSize) ∘ Nat.succ)
        = (List.range k).map (fun i => paginate (df.drop pageSize) (i + 1) pageSize) := by
      apply List.map_congr_left
      intro i _
      show paginate df (i + 1 + 1) pageSize = paginate (df.drop pageSize) (i + 1) pageSize
      exact paginate_shift df i pageSize
    rw [hmap, paginate_first, ih]
    · exact List.take_append_drop pageSize df
    · rw [List.length_drop]
      have hsm : (k + 1) * pageSize = k * pageSize + pageSize := Nat.succ_mul k pageSize
      rw [hsm] at h
      generalize k * pageSize = m at *
      omega

theorem length_le_total_pages_mul (n pageSize : Nat) (hps : 0 < pageSize) :
    n ≤ total_pages n pageSize * pageSize := by
  unfold total_pages
  by_cases h : 0 < n
  · rw [if_pos h]
    have hdm := Nat.div_add_mod (n - 1) pageSize
    have hlt : (n - 1) % pageSize < pageSize := Nat.mod_lt _ hps
    have hsm : ((n - 1) / pageSize + 1) * pageSize
        = pageSize * ((n - 1) / pageSize) + pageSize := by
      rw [Nat.succ_mul, Nat.mul_comm]
    rw [hsm]
    generalize pageSize * ((n - 1) / pageSize) = m at *
    omega
  · rw [if_neg h]
    have hz : n = 0 := by omega
    simp [hz]

/-- C2: `total_pages` is the ceiling of total over page size with a
minimum of 1 even at total 0; a page slice never exceeds the page size;
the slice lengths over pages 1..total_pages sum to the record count; and
the page request is clamped into [1, total_pages], so no slice is ever
taken out of bounds. -/
theorem paginate_spec (pageSize : Nat) (hps : 0 < pageSize) :
    (∀ t, total_pages t pageSize = max 1 ((t + pageSize - 1) / pageSize))
  ∧ (∀ (df : List VisitorRecord) (page : Nat),
      (paginate df page pageSize).length ≤ pageSize)
  ∧ (∀ df : List VisitorRecord,
      ((List.range (total_pages df.length pageSize)).map
        (fun i => (paginate df (i + 1) pageSize).length)).sum = df.length)
  ∧ (∀ p t, 1 ≤ clamp_page p (total_pages t pageSize)
      ∧ clamp_page p (total_pages t pageSize) ≤ total_pages t pageSize) := by
  refine ⟨fun t => ?_, fun df page => ?_, fun df => ?_, fun p t => ?_⟩
  · unfold total_pages
    by_cases h : 0 < t
    · rw [if_pos h]
      have he : t + pageSize - 1 = (t - 1) + pageSize := by omega
      rw [he, Nat.add_div_right _ hps]
      exact (Nat.max_eq_right (Nat.le_add_left 1 _)).symm
    · rw [if_neg h]
      have ht : t = 0 := by omega
      subst ht
      have hz : (0 + pageSize - 1) / pageSize = 0 :=
        Nat.div_eq_of_lt (by omega)
      rw [hz]
      simp
  · simp only [paginate, List.length_take]
    exact min_le_left _ _
  · have hj := join_pages pageSize (total_pages df.length pageSize) df
      (length_le_total_pages_mul df.length pageSize hps)
    have hl := congrArg List.length hj
    rw [List.length_flatten, List.map_map] at hl
    simpa [Function.comp] using hl
  · constructor
    · exact le_max_left 1 _
    · exact max_le (total_pages_pos t pageSize) (min_le_right p _)

/-- C2 witness: page size 10 over 25 records gives 3 pages, the ceiling
of 25/10. -/
theorem paginate_spec_witness :
    0 < 10 ∧ total_pages 25 10 = max 1 ((25 + 10 - 1) / 10) :=
  ⟨by decide, (paginate_spec 10 (by decide)).1 25⟩

theorem day_data_mem (df : List VisitorRecord) (d : String) (x : Option Nat) :
    (d, x) ∈ day_data df
      ↔ d ∈ dayOrder
        ∧ x = (if day_count df d = 0 then none else some (day_count df d)) := by
  simp only [day_data, List.mem_map, Prod.mk.injEq]
  constructor
  · rintro ⟨a, ha, rfl, hx⟩
    exact ⟨ha, hx.symm⟩
  · rintro ⟨hd, rfl⟩
    exact ⟨d, hd, rfl, rfl⟩

/-- C3 (amended): grouping by day_name yields the seven buckets in the
fixed canonical order Monday..Sunday regardless of data order and never
throws (it is a total function); a day with zero matching rows appears as
a bucket carrying a missing (NaN) count, and a day with matching rows
carries its positive count. -/
theorem day_data_spec (df : List VisitorRecord) (d : String) (hd : d ∈ dayOrder) :
    ((day_data df).map Prod.fst = dayOrder)
  ∧ ((d, (none : Option Nat)) ∈ day_data df ↔ day_count df d = 0)
  ∧ (∀ c : Nat, (d, some c) ∈ day_data df ↔ 0 < c ∧ day_count df d = c) := by
  refine ⟨?_, ?_, fun c => ?_⟩
  · unfold day_data
    rw [List.map_map]
    exact List.map_id dayOrder
  · rw [day_data_mem]
    by_cases h0 : day_count df d = 0 <;> simp [h0, hd]
  · rw [day_data_mem]
    by_cases h0 : day_count df d = 0 <;> simp [h0, hd] <;> omega

/-- C3 witness: over the one-Monday-row set, the buckets are canonical and
Sunday carries a NaN count because it has no rows. -/
theorem day_data_spec_witness :
    ("Sunday" ∈ dayOrder)
  ∧ ((day_data [rowUS]).map Prod.fst = dayOrder)
  ∧ (("Sunday", (none : Option Nat)) ∈ day_data [rowUS]
      ↔ day_count [rowUS] "Sunday" = 0) :=
  ⟨by decide, (day_data_spec [rowUS] "Sunday" (by decide)).1,
    (day_data_spec [rowUS] "Sunday" (by decide)).2.1⟩

/-- C3 counterexample: over a set with no Sunday rows, the Sunday bucket is
neither reported with count 0 nor entirely absent: it is present with a
missing (NaN) count. -/
theorem day_data_counterexample :
    day_count [rowUS] "Sunday" = 0
  ∧ ("Sunday", (none : Option Nat)) ∈ day_data [rowUS]
  ∧ ∀ c : Nat, ("Sunday", some c) ∉ day_data [rowUS] := by
  refine ⟨by decide, by decide, fun c hc => ?_⟩
  rw [day_data_mem] at hc
  have h0 : day_count [rowUS] "Sunday" = 0 := by decide
  rw [h0] at hc
  simp at hc

theorem occurs_in_empty (l : List Char) : occurs_in [] l = true := by
  cases l <;> simp [occurs_in, leading_match]

theorem parse_pattern_literal (n : List Char)
    (h : ∀ c ∈ n, python_metachars.contains c = false) :
    parse_pattern n = some (n.map RTok.lit) := by
  induction n with
  | nil => rfl
  | cons c cs ih =>
    have hc : python_metachars.contains c = false := h c (List.mem_cons_self c cs)
    have hdot : c ≠ '.' := by
      intro hcc
      subst hcc
      exact absurd hc (by decide)
    simp only [parse_pattern, if_neg hdot, hc, Bool.false_eq_true, if_false,
      ih (fun x hx => h x (List.mem_cons_of_mem c hx)), List.map_cons]
    rfl

theorem rmatch_here_lit (n h : List Char) :
    rmatch_here (n.map RTok.lit) h = leading_match n h := by
  induction n generalizing h with
  | nil => cases h <;> rfl
  | cons c cs ih =>
    cases h with
    | nil => rfl
    | cons b bs => simp [rmatch_here, leading_match, tok_match, ih]

theorem rsearch_lit (n h : List Char) :
    rsearch (n.map RTok.lit) h = occurs_in n h := by
  induction h with
  | nil => simp [rsearch, occurs_in, rmatch_here_lit]
  | cons b bs ih => simp [rsearch, occurs_in, rmatch_here_lit, ih]

/-- C5 (amended): the free-text search is a case-insensitive regex search
of each column's string form (pandas `str.contains` defaults to
`regex=True`); for every search term free of regex metacharacters it
keeps exactly the rows in which the case-insensitive substring check
against the string form of at least one column succeeds; the row with
country "US" and device "Mobile" matches the term "US", and the row with
country "FR" and device "Desktop" does not. -/
theorem search_spec (df : List VisitorRecord) (term : String) (r : VisitorRecord)
    (hlit : ∀ c ∈ lower_chars term, python_metachars.contains c = false) :
    (∃ kept, search_apply term df = some kept
       ∧ (r ∈ kept ↔ r ∈ df
            ∧ (row_strings r).any
                (fun s => occurs_in (lower_chars term) (lower_chars s)) = true))
  ∧ search_apply "US" [rowUS, rowFR] = some [rowUS] := by
  refine ⟨?_, by decide⟩
  by_cases hterm : term = ""
  · subst hterm
    refine ⟨df, rfl, ?_⟩
    have hemp : lower_chars "" = [] := rfl
    rw [hemp]
    simp [row_strings, occurs_in_empty]
  · rw [search_apply, if_pos hterm, parse_pattern_literal _ hlit]
    refine ⟨_, rfl, ?_⟩
    rw [List.mem_filter]
    simp [search_mask, rsearch_lit]

/-- C5 witness: the metacharacter-free term "US" keeps exactly the US
row. -/
theorem search_spec_witness :
    search_apply "US" [rowUS, rowFR] = some [rowUS] :=
  (search_spec [rowUS, rowFR] "US" rowUS (by decide)).2

/-- C5 counterexample: under the regex default, the term "." keeps a row
although no column's string form contains a literal dot, so the search is
not the substring check the claim states. -/
theorem search_regex_counterexample :
    search_apply "." [rowNoDot] = some [rowNoDot]
  ∧ (row_strings rowNoDot).any
      (fun s => occurs_in (lower_chars ".") (lower_chars s)) = false :=
  ⟨by decide, by decide⟩

theorem rolling_avg_length (w : Nat) (xs : List Nat) :
    (rolling_avg w xs).length = xs.length := by
  simp [rolling_avg]

theorem daily_counts_length (df : List VisitorRecord) :
    (daily_counts df).length = num_dates df := by
  simp [daily_counts, daily_visits, num_dates]

theorem num_dates_pos (df : List VisitorRecord) (h : df ≠ []) : 0 < num_dates df := by
  unfold num_dates distinct_dates
  rw [(List.perm_insertionSort (· ≤ ·) (df.map dateOf).dedup).length_eq]
  rw [List.length_pos]
  intro hn
  rw [List.dedup_eq_nil] at hn
  exact h (List.map_eq_nil_iff.mp hn)

theorem rolling_avg_entry_mul (w : Nat) (hw : 0 < w) (xs : List Nat) (i : Nat) (y : ℚ)
    (hy : (rolling_avg w xs).getD i none = some y) :
    y * (w : ℚ) = (((xs.drop (win_start w i)).take w).sum : ℚ) := by
  by_cases hi : i < xs.length
  · have hget : (rolling_avg w xs).getD i none = rolling_entry w xs i := by
      unfold rolling_avg
      rw [List.getD_eq_getElem?_getD, List.getElem?_map, List.getElem?_range hi]
      rfl
    rw [hget] at hy
    unfold rolling_entry at hy
    split at hy
    · next hcond =>
      have heq : win_end w xs.length i - win_start w i = w := by
        refine le_antisymm ?_ hcond
        unfold win_end win_start
        omega
      rw [heq] at hy
      have hyv : y = (((xs.drop (win_start w i)).take w).sum : ℚ) / (w : ℚ) :=
        (Option.some_inj.mp hy).symm
      have hwq : (w : ℚ) ≠ 0 := Nat.cast_ne_zero.mpr (Nat.pos_iff_ne_zero.mp hw)
      rw [hyv]
      exact div_mul_cancel₀ _ hwq
    · exact Option.noConfusion hy
  · have hnone : (rolling_avg w xs).getD i none = none := by
      unfold rolling_avg
      rw [List.getD_eq_getElem?_getD, List.getElem?_eq_none]
      · rfl
      · simpa using Nat.not_lt.mp hi
    rw [hnone] at hy
    exact Option.noConfusion hy

/-- C1 (amended): the trend-view rolling average is a centered moving mean
over date-ordered daily counts with a window of 7 (or the number of
distinct dates if smaller), its output length equals the number of
distinct dates, and each defined entry times the window size equals the
sum of the window's worth of consecutive daily counts; the operation is
skipped and reported as insufficient data exactly when the filtered
record set has at most 7 records — not when it has fewer than 8 distinct
dates. -/
theorem trend_view_spec (df : List VisitorRecord) :
    (trend_view df = none ↔ df.length ≤ 7)
  ∧ (∀ ys, trend_view df = some ys →
      ys = rolling_avg (min 7 (num_dates df)) (daily_counts df)
      ∧ ys.length = num_dates df
      ∧ ∀ i y, ys.getD i none = some y →
          y * ((min 7 (num_dates df) : Nat) : ℚ)
            = ((((daily_counts df).drop (win_start (min 7 (num_dates df)) i)).take
                (min 7 (num_dates df))).sum : ℚ)) := by
  constructor
  · rw [trend_view]
    by_cases h : 7 < df.length <;> simp [h] <;> omega
  · intro ys hys
    have h7 : 7 < df.length := by
      by_contra hle
      rw [trend_view, if_neg hle] at hys
      exact Option.noConfusion hys
    rw [trend_view, if_pos h7] at hys
    have hysv : rolling_avg (min 7 (num_dates df)) (daily_counts df) = ys :=
      Option.some_inj.mp hys
    subst hysv
    have hne : df ≠ [] := by
      intro hnil
      rw [hnil] at h7
      exact absurd h7 (by decide)
    have hw : 0 < min 7 (num_dates df) :=
      Nat.lt_min.mpr ⟨by decide, num_dates_pos df hne⟩
    refine ⟨rfl, ?_, ?_⟩
    · rw [rolling_avg_length, daily_counts_length]
    · intro i y hy
      exact rolling_avg_entry_mul _ hw _ i y hy

/-- C1 witness: the eight-one-date row set is computed, with one output
entry per distinct date. -/
theorem trend_view_spec_witness :
    (rolling_avg (min 7 (num_dates ex8)) (daily_counts ex8)).length = num_dates ex8 :=
  ((trend_view_spec ex8).2 _ rfl).2.1

/-- C1 counterexample: eight records on a single calendar date have fewer
than 8 distinct dates, yet the trend view computes the rolling average
instead of skipping it as insufficient data. -/
theorem trend_view_counterexample :
    num_dates ex8 < 8 ∧ trend_view ex8 ≠ none :=
  ⟨by decide, by decide⟩

end VisitorTracker
